import Mathlib

/-!
# OSVR DisplayConfig: viewport and eye-offset derivation

A shallow embedding of `src/osvr/Client/DisplayConfig.cpp` (the functions
`computeViewport`, `computeRect`, `DisplayConfigFactory::create`) and of the C
entry points of `src/osvr/ClientKit/DisplayC.cpp` that read the resulting
object graph.

Modelling conventions

* Pixel quantities are mathematical integers (`Int`).  The C++ operator `/` on
  integers truncates toward zero, which is `Int.tdiv`.  Every value the code
  computes from a non-negative resolution lies between `0` and that
  resolution, so no machine width is exceeded by the arithmetic itself.
* `double` quantities (IPD, offsets, field of view) are rationals: arithmetic
  is taken exactly.
* A C++ evaluation either returns, throws an exception derived from
  `std::exception`, trips a `BOOST_ASSERT`, or has undefined behaviour; the
  last three are the constructors of `Fault`, and a computation is an
  `Except Fault _`.
* A pointer that may be null is an `Option`.
-/

namespace OSVR

/-! ## Exceptions and faults -/

/-- Exceptions derived from `std::exception` that the embedded code throws or
catches. -/
inductive Exn where
  /-- The `std::logic_error` with its `what()` text. -/
  | logic_error (what : String)
  /-- The exception `osvr::client::NoPoseYet`. -/
  | NoPoseYet
  /-- Any other exception derived from `std::exception`, with its `what()`. -/
  | std_exception (what : String)
  deriving DecidableEq, Repr

/-- Ways in which a C++ evaluation does not return normally. -/
inductive Fault where
  /-- An exception is propagating. -/
  | thrown (e : Exn)
  /-- A `BOOST_ASSERT_MSG` failed in a build with assertions enabled. -/
  | assertion_failed (msg : String)
  /-- Undefined behaviour, such as `std::vector::operator[]` out of range. -/
  | undefined_behaviour (what : String)
  deriving DecidableEq, Repr

/-- The text passed to `std::logic_error` in the `default:` arm of
`computeViewport`. -/
def unrecognizedDisplayModeText : String :=
  "Unrecognized enum value for display mode"

/-- The fault raised by the `default:` arm of `computeViewport`. -/
def UnrecognizedDisplayMode : Fault :=
  Fault.thrown (Exn.logic_error unrecognizedDisplayModeText)

/-! ## The display descriptor (declared in `DisplayDescriptorSchema1.h`) -/

/-- Values of `display_schema_1::DisplayDescriptor::DisplayMode`.  The three
named enumerators are the ones the switch in `computeViewport` has a case for;
`unmapped raw` is any other value an object of the enumeration type holds. -/
inductive DisplayMode where
  | FULL_SCREEN
  | HORIZONTAL_SIDE_BY_SIDE
  | VERTICAL_SIDE_BY_SIDE
  | unmapped (raw : Int)
  deriving DecidableEq, Repr

/-- One element of `DisplayDescriptor::getEyes()`. -/
structure EyeDescriptor where
  m_rotate180 : Bool
  deriving DecidableEq, Repr

/-- The parsed descriptor, as far as `DisplayConfig.cpp` reads it through the
getters `getDisplayMode`, `getDisplayWidth`, `getDisplayHeight`,
`getHorizontalFOV`, `getVerticalFOV`, `getIPDMeters`, `getPitchTilt` and
`getEyes`. -/
structure DisplayDescriptor where
  displayMode : DisplayMode
  displayWidth : Int
  displayHeight : Int
  horizontalFOV : ℚ
  verticalFOV : ℚ
  IPDMeters : ℚ
  pitchTilt : ℚ
  eyes : List EyeDescriptor
  deriving DecidableEq, Repr

/-- Whether the switch of `computeViewport` has a case for the mode. -/
def DisplayMode.recognized : DisplayMode → Bool
  | .FULL_SCREEN => true
  | .HORIZONTAL_SIDE_BY_SIDE => true
  | .VERTICAL_SIDE_BY_SIDE => true
  | .unmapped _ => false

/-! ## Viewport -/

/-- The struct `Viewport`: a pixel rectangle. -/
structure Viewport where
  left : Int
  bottom : Int
  width : Int
  height : Int
  deriving DecidableEq, Repr

/-- The function `computeViewport(eye, descriptor)` of `DisplayConfig.cpp`,
statement by statement.  `eye` is the `uint8_t` argument. -/
def computeViewport (eye : Nat) (descriptor : DisplayDescriptor) :
    Except Fault Viewport :=
  let viewport : Viewport := ⟨0, 0, 0, 0⟩
  match descriptor.displayMode with
  | .FULL_SCREEN =>
    let viewport := { viewport with left := 0 }
    let viewport := { viewport with bottom := viewport.left }
    let viewport := { viewport with width := descriptor.displayWidth }
    let viewport := { viewport with height := descriptor.displayHeight }
    .ok viewport
  | .HORIZONTAL_SIDE_BY_SIDE =>
    let viewport := { viewport with bottom := 0 }
    let viewport := { viewport with height := descriptor.displayHeight }
    let viewport := { viewport with width := Int.tdiv descriptor.displayWidth 2 }
    let viewport := { viewport with left := (eye : Int) * viewport.width }
    .ok viewport
  | .VERTICAL_SIDE_BY_SIDE =>
    let viewport := { viewport with left := 0 }
    let viewport := { viewport with width := descriptor.displayWidth }
    let viewport := { viewport with height := Int.tdiv descriptor.displayHeight 2 }
    let viewport :=
      if eye = 0 then { viewport with bottom := viewport.height }
      else { viewport with bottom := 0 }
    .ok viewport
  | .unmapped _ => .error UnrecognizedDisplayMode

/-- The policy table of the specification, section 4.2, row by row.  The
quotients `displayWidth/2` and `displayHeight/2` are the mathematical integer
quotients (floor), which is what truncation gives on non-negative integers.
There is no row for any other mode. -/
def policyTable (mode : DisplayMode) (eyeIndex : Nat) (displayWidth displayHeight : Int) :
    Option Viewport :=
  match mode with
  | .FULL_SCREEN =>
    some { left := 0, bottom := 0, width := displayWidth, height := displayHeight }
  | .HORIZONTAL_SIDE_BY_SIDE =>
    some { left := (eyeIndex : Int) * (displayWidth / 2), bottom := 0,
           width := displayWidth / 2, height := displayHeight }
  | .VERTICAL_SIDE_BY_SIDE =>
    some { left := 0, bottom := if eyeIndex = 0 then displayHeight / 2 else 0,
           width := displayWidth, height := displayHeight / 2 }
  | .unmapped _ => none

/-! ## Vectors and rectangles (Eigen and `osvr/Util`) -/

/-- The type `Eigen::Vector3d`, with exact components. -/
structure Vector3d where
  x : ℚ
  y : ℚ
  z : ℚ
  deriving DecidableEq, Repr

/-- The vector `Eigen::Vector3d::UnitX()`. -/
def Vector3d.UnitX : Vector3d := ⟨1, 0, 0⟩

/-- The vector `Eigen::Vector3d::Zero()`. -/
def Vector3d.Zero : Vector3d := ⟨0, 0, 0⟩

/-- Scalar times vector, the Eigen product `s * v`. -/
def Vector3d.scale (s : ℚ) (v : Vector3d) : Vector3d := ⟨s * v.x, s * v.y, s * v.z⟩

/-- Componentwise negation of a vector. -/
def Vector3d.neg (v : Vector3d) : Vector3d := ⟨-v.x, -v.y, -v.z⟩

/-- The type `util::Rectd`: a field-of-view rectangle. -/
structure Rectd where
  left : ℚ
  right : ℚ
  bottom : ℚ
  top : ℚ
  deriving DecidableEq, Repr

/-- Collaborators of `DisplayConfigFactory::create` that live outside the
sources at hand and are therefore parameters: the constructor
`display_schema_1::DisplayDescriptor(std::string)` and the function
`util::computeSymmetricFOVRect`. -/
structure Externals where
  parseDescriptor : String → Except Exn DisplayDescriptor
  computeSymmetricFOVRect : ℚ → ℚ → Rectd

/-- The function `computeRect(descriptor)` of `DisplayConfig.cpp`. -/
def computeRect (ext : Externals) (descriptor : DisplayDescriptor) : Rectd :=
  ext.computeSymmetricFOVRect descriptor.horizontalFOV descriptor.verticalFOV

/-! ## The object graph DisplayConfig → Viewer → ViewerEye -/

/-- A `ViewerEye`, holding the constructor arguments `create` passes after the
reference to the owning viewer: context, offset, path, viewport, rectangle,
rotation flag and pitch tilt. -/
structure ViewerEye where
  ctx : Nat
  offset : Vector3d
  path : String
  viewport : Viewport
  rect : Rectd
  rotate180 : Bool
  pitchTilt : ℚ
  deriving DecidableEq, Repr

/-- A `Viewer`: the context it was built with, its path and `m_eyes`. -/
structure Viewer where
  ctx : Nat
  path : String
  m_eyes : List ViewerEye
  deriving DecidableEq, Repr

/-- A `DisplayConfig`: the vector `m_viewers`. -/
structure DisplayConfig where
  m_viewers : List Viewer
  deriving DecidableEq, Repr

/-- The struct `OSVR_DisplayConfigObject` of `DisplayC.cpp`: the context
pointer and the `DisplayConfigPtr`, which may be null. -/
structure OSVR_DisplayConfigObject where
  ctx : Nat
  cfg : Option DisplayConfig
  deriving DecidableEq, Repr

/-- The state of a client context as far as the embedded code touches it: its
address (what an `OSVR_ClientContext` pointer to it holds), the method
`getStringParameter`, and the objects handed to `acquireObject` so far. -/
structure ClientContext where
  address : Nat
  getStringParameter : String → Except Exn String
  acquired : List OSVR_DisplayConfigObject

/-- Modelled from the spec: `ClientContext::acquireObject` is declared in
`osvr/Common/ClientContext.h`, which is not among the sources; the context
registers the object it is given, recorded as one more entry of `acquired`. -/
def ClientContext.acquireObject (ctx : ClientContext) (obj : OSVR_DisplayConfigObject) :
    ClientContext :=
  { ctx with acquired := ctx.acquired ++ [obj] }

/-- An exception thrown by a collaborator propagates as a fault. -/
def liftExn {α : Type} : Except Exn α → Except Fault α
  | .ok a => .ok a
  | .error e => .error (Fault.thrown e)

/-- The constant `HEAD_PATH` of `DisplayConfig.cpp`. -/
def HEAD_PATH : String := "/me/head"

/-- The loop `for (auto eye : eyeIndices)` of `DisplayConfigFactory::create`:
each iteration appends one `ViewerEye` to `m_eyes`.  The arguments of the
`ViewerEye` constructor are indeterminately sequenced, and one of them is the
unchecked read `eyesDesc[eye]`, which is undefined behaviour past the end of
the vector.  An evaluation that may perform that read before
`computeViewport(eye, desc)` throws is allowed, so an index past the end makes
the iteration undefined whatever `computeViewport` does: the bound is examined
first, and the remaining arguments follow in the order they are written. -/
def emplaceEyes (ext : Externals) (ctx : ClientContext) (desc : DisplayDescriptor)
    (offset : Vector3d) : List Nat → List ViewerEye → Except Fault (List ViewerEye)
  | [], m_eyes => .ok m_eyes
  | eye :: rest, m_eyes =>
    let offsetFactor : ℚ := (2 * (eye : ℚ)) - 1
    match desc.eyes[eye]? with
    | none => .error (Fault.undefined_behaviour "eyesDesc[eye] past the end")
    | some eyeDesc =>
      match computeViewport eye desc with
      | .error f => .error f
      | .ok viewport =>
        emplaceEyes ext ctx desc offset rest
          (m_eyes ++ [{ ctx := ctx.address, offset := Vector3d.scale offsetFactor offset,
                        path := HEAD_PATH, viewport := viewport,
                        rect := computeRect ext desc,
                        rotate180 := eyeDesc.m_rotate180, pitchTilt := desc.pitchTilt }])

/-- The function `DisplayConfigFactory::create(ctx)` of `DisplayConfig.cpp`.
The returned `DisplayConfigPtr` owns a fresh object and is never null. -/
def DisplayConfigFactory.create (ext : Externals) (ctx : ClientContext) :
    Except Fault DisplayConfig :=
  match liftExn (ctx.getStringParameter "/display") with
  | .error f => .error f
  | .ok descriptorString =>
    match liftExn (ext.parseDescriptor descriptorString) with
    | .error f => .error f
    | .ok desc =>
      let viewer : Viewer := { ctx := ctx.address, path := HEAD_PATH, m_eyes := [] }
      let eyesDesc := desc.eyes
      let stereo : Vector3d × List Nat :=
        if eyesDesc.length = 2 then
          (Vector3d.scale (desc.IPDMeters / 2) Vector3d.UnitX, [0, 1])
        else
          (Vector3d.Zero, [0])
      match emplaceEyes ext ctx desc stereo.1 stereo.2 viewer.m_eyes with
      | .error f => .error f
      | .ok m_eyes => .ok { m_viewers := [{ viewer with m_eyes := m_eyes }] }

/-! ## Accessors declared in `osvr/Client/DisplayConfig.h` -/

/-- The fault for an index that is not below the size of the indexed
sequence, the `IndexOutOfRange` of the specification. -/
def IndexOutOfRange : Fault := Fault.thrown (Exn.std_exception "index out of range")

/-- Modelled from the spec: `DisplayConfig::size()` is declared in
`osvr/Client/DisplayConfig.h`, which is not among the sources; it is the
viewer count. -/
def DisplayConfig.size (cfg : DisplayConfig) : Nat := cfg.m_viewers.length

/-- Modelled from the spec: `DisplayConfig::getViewer(i)` is declared in
`osvr/Client/DisplayConfig.h`, which is not among the sources; it returns
viewer `i` and fails when `i` is out of range. -/
def DisplayConfig.getViewer (cfg : DisplayConfig) (i : Nat) : Except Fault Viewer :=
  match cfg.m_viewers[i]? with
  | some v => .ok v
  | none => .error IndexOutOfRange

/-- Modelled from the spec: `Viewer::size()` is declared in a header that is
not among the sources; it is the number of eyes of the viewer. -/
def Viewer.size (v : Viewer) : Nat := v.m_eyes.length

/-- Modelled from the spec: `DisplayConfig::getNumViewerEyes(viewer)` is
declared in `osvr/Client/DisplayConfig.h`, which is not among the sources; it
is the eye count of that viewer. -/
def DisplayConfig.getNumViewerEyes (cfg : DisplayConfig) (viewer : Nat) : Except Fault Nat :=
  match cfg.getViewer viewer with
  | .ok v => .ok v.size
  | .error f => .error f

/-- Modelled from the spec: `DisplayConfig::getViewerEye(viewer, eye)` is
declared in `osvr/Client/DisplayConfig.h`, which is not among the sources; it
returns that eye and fails with `IndexOutOfRange` when the eye index is not
below the viewer's eye count. -/
def DisplayConfig.getViewerEye (cfg : DisplayConfig) (viewer eye : Nat) :
    Except Fault ViewerEye :=
  match cfg.getViewer viewer with
  | .error f => .error f
  | .ok v =>
    match v.m_eyes[eye]? with
    | some e => .ok e
    | none => .error IndexOutOfRange

/-! ## The C entry points of `DisplayC.cpp` -/

/-- The two values of `OSVR_ReturnCode`. -/
inductive OSVR_ReturnCode where
  | OSVR_RETURN_SUCCESS
  | OSVR_RETURN_FAILURE
  deriving DecidableEq, Repr

/-- The type `OSVR_Pose3`: a translation and a rotation quaternion. -/
structure OSVR_Pose3 where
  translation : Vector3d
  rotationW : ℚ
  rotationX : ℚ
  rotationY : ℚ
  rotationZ : ℚ
  deriving DecidableEq, Repr

/-- The constructor of `OSVR_DisplayConfigObject`: it stores the context
pointer and the pointer returned by `DisplayConfigFactory::create`, and
propagates what `create` throws. -/
def OSVR_DisplayConfigObject.construct (ext : Externals) (context : ClientContext) :
    Except Fault OSVR_DisplayConfigObject :=
  match DisplayConfigFactory.create ext context with
  | .error f => .error f
  | .ok cfg => .ok { ctx := context.address, cfg := some cfg }

/-- What a caller of `osvrClientGetDisplay` observes afterwards: the return
code, the context (null when a null context was passed) and the cell `*disp`
(`none` when the pointer `disp` itself is null; otherwise the handle stored in
the cell, a null handle being the inner `none`). -/
structure GetDisplayResult where
  code : OSVR_ReturnCode
  ctx : Option ClientContext
  disp : Option (Option OSVR_DisplayConfigObject)

/-- The function `osvrClientGetDisplay(ctx, disp)` of `DisplayC.cpp`.  The
argument `disp` is `none` for a null output pointer and otherwise carries the
handle the cell holds before the call.  The `catch (std::exception &)` clause
handles every thrown exception; other faults are not catchable. -/
def osvrClientGetDisplay (ext : Externals) (ctx : Option ClientContext)
    (disp : Option (Option OSVR_DisplayConfigObject)) : Except Fault GetDisplayResult :=
  match disp with
  | none => .ok { code := .OSVR_RETURN_FAILURE, ctx := ctx, disp := none }
  | some held =>
    match ctx with
    | none => .ok { code := .OSVR_RETURN_FAILURE, ctx := none, disp := some none }
    | some context =>
      match OSVR_DisplayConfigObject.construct ext context with
      | .error (Fault.thrown _) =>
        .ok { code := .OSVR_RETURN_FAILURE, ctx := some context, disp := some held }
      | .error f => .error f
      | .ok object =>
        let config : Option OSVR_DisplayConfigObject := some object
        match config with
        | none => .ok { code := .OSVR_RETURN_FAILURE, ctx := some context, disp := some held }
        | some obj =>
          match obj.cfg with
          | none =>
            .ok { code := .OSVR_RETURN_FAILURE, ctx := some context, disp := some held }
          | some _ =>
            .ok { code := .OSVR_RETURN_SUCCESS, ctx := some (context.acquireObject obj),
                  disp := some (some obj) }

/-- The text of the macro `OSVR_VALIDATE_VIEWER_ID`. -/
def viewerIdText : String := "Must pass a valid viewer ID."

/-- The text of the macro `OSVR_VALIDATE_EYE_ID`. -/
def eyeIdText : String := "Must pass a valid eye ID."

/-- The macro `BOOST_ASSERT_MSG(cond, msg)`: nothing when assertions are
compiled out, otherwise a failure when the condition is false. -/
def BOOST_ASSERT_MSG (assertionsEnabled : Bool) (cond : Bool) (msg : String) :
    Except Fault Unit :=
  if assertionsEnabled && !cond then .error (Fault.assertion_failed msg) else .ok ()

/-- Dereferencing `disp->cfg`: undefined behaviour on a null pointer. -/
def OSVR_DisplayConfigObject.deref (disp : OSVR_DisplayConfigObject) :
    Except Fault DisplayConfig :=
  match disp.cfg with
  | some cfg => .ok cfg
  | none => .error (Fault.undefined_behaviour "null DisplayConfigPtr dereferenced")

/-- The function `osvrClientGetNumViewers(disp, viewers)`.  The argument
`viewers` is `none` for a null output pointer and otherwise the count held in
the cell before the call; the second component of the result is the cell
afterwards.  Counts are natural numbers: the widths of `OSVR_ViewerCount` and
`OSVR_EyeCount` are declared outside the sources. -/
def osvrClientGetNumViewers (disp : Option OSVR_DisplayConfigObject) (viewers : Option Nat) :
    Except Fault (OSVR_ReturnCode × Option Nat) :=
  match disp with
  | none => .ok (.OSVR_RETURN_FAILURE, viewers)
  | some d =>
    match viewers with
    | none => .ok (.OSVR_RETURN_FAILURE, none)
    | some _ =>
      match d.deref with
      | .error f => .error f
      | .ok cfg => .ok (.OSVR_RETURN_SUCCESS, some cfg.size)

/-- The function `osvrClientGetNumEyesForViewer(disp, viewer, eyes)`, with the
same convention for the output pointer `eyes`. -/
def osvrClientGetNumEyesForViewer (assertionsEnabled : Bool)
    (disp : Option OSVR_DisplayConfigObject) (viewer : Nat) (eyes : Option Nat) :
    Except Fault (OSVR_ReturnCode × Option Nat) :=
  match disp with
  | none => .ok (.OSVR_RETURN_FAILURE, eyes)
  | some d =>
    match BOOST_ASSERT_MSG assertionsEnabled (viewer == 0) viewerIdText with
    | .error f => .error f
    | .ok _ =>
      match eyes with
      | none => .ok (.OSVR_RETURN_FAILURE, none)
      | some _ =>
        match d.deref with
        | .error f => .error f
        | .ok cfg =>
          match cfg.getViewer viewer with
          | .error f => .error f
          | .ok v => .ok (.OSVR_RETURN_SUCCESS, some v.size)

/-- The condition of `OSVR_VALIDATE_EYE_ID`:
`eye < disp->cfg->getNumViewerEyes(viewer)`. -/
def eyeIdValid (d : OSVR_DisplayConfigObject) (viewer eye : Nat) : Except Fault Bool :=
  match d.deref with
  | .error f => .error f
  | .ok cfg =>
    match cfg.getNumViewerEyes viewer with
    | .error f => .error f
    | .ok n => .ok (decide (eye < n))

/-- The macro `OSVR_VALIDATE_EYE_ID`; its condition is evaluated only when
assertions are compiled in. -/
def OSVR_VALIDATE_EYE_ID (assertionsEnabled : Bool) (d : OSVR_DisplayConfigObject)
    (viewer eye : Nat) : Except Fault Unit :=
  if assertionsEnabled then
    match eyeIdValid d viewer eye with
    | .error f => .error f
    | .ok cond => BOOST_ASSERT_MSG assertionsEnabled cond eyeIdText
  else .ok ()

/-- The expression `disp->cfg->getViewerEye(viewer, eye).getPose()`.  The
method `ViewerEye::getPose` asks the tracking subsystem, which is outside the
sources, so it is the parameter `getPose`: it returns a pose or throws. -/
def viewerEyePose (getPose : ViewerEye → Except Exn OSVR_Pose3)
    (d : OSVR_DisplayConfigObject) (viewer eye : Nat) : Except Fault OSVR_Pose3 :=
  match d.deref with
  | .error f => .error f
  | .ok cfg =>
    match cfg.getViewerEye viewer eye with
    | .error f => .error f
    | .ok viewerEye => liftExn (getPose viewerEye)

/-- The function `osvrClientGetViewerEyePose(disp, viewer, eye, pose)`.  The
argument `pose` is `none` for a null output pointer and otherwise the pose the
cell holds before the call; the second component of the result is the cell
afterwards.  Both catch clauses return `OSVR_RETURN_FAILURE`. -/
def osvrClientGetViewerEyePose (assertionsEnabled : Bool)
    (getPose : ViewerEye → Except Exn OSVR_Pose3)
    (disp : Option OSVR_DisplayConfigObject) (viewer eye : Nat) (pose : Option OSVR_Pose3) :
    Except Fault (OSVR_ReturnCode × Option OSVR_Pose3) :=
  match disp with
  | none => .ok (.OSVR_RETURN_FAILURE, pose)
  | some d =>
    match BOOST_ASSERT_MSG assertionsEnabled (viewer == 0) viewerIdText with
    | .error f => .error f
    | .ok _ =>
      match OSVR_VALIDATE_EYE_ID assertionsEnabled d viewer eye with
      | .error f => .error f
      | .ok _ =>
        match pose with
        | none => .ok (.OSVR_RETURN_FAILURE, none)
        | some held =>
          match viewerEyePose getPose d viewer eye with
          | .ok p => .ok (.OSVR_RETURN_SUCCESS, some p)
          | .error (Fault.thrown Exn.NoPoseYet) => .ok (.OSVR_RETURN_FAILURE, some held)
          | .error (Fault.thrown _) => .ok (.OSVR_RETURN_FAILURE, some held)
          | .error f => .error f

/-! ## Concrete inputs used to state instances -/

/-- A descriptor with the given mode and resolution and fixed remaining
fields, used to state concrete instances. -/
def sampleDescriptor (mode : DisplayMode) (w h : Int) (eyes : List EyeDescriptor) :
    DisplayDescriptor :=
  { displayMode := mode, displayWidth := w, displayHeight := h,
    horizontalFOV := 90, verticalFOV := 90, IPDMeters := 13 / 200,
    pitchTilt := 0, eyes := eyes }

/-- A parser that yields the given descriptor for every string. -/
def sampleExternals (desc : DisplayDescriptor) : Externals :=
  { parseDescriptor := fun _ => .ok desc,
    computeSymmetricFOVRect := fun h v => { left := -h, right := h, bottom := -v, top := v } }

/-- A context that has a "/display" parameter and holds no object yet. -/
def sampleContext : ClientContext :=
  { address := 1,
    getStringParameter := fun path =>
      if path = "/display" then .ok "descriptor" else .error (Exn.std_exception "no parameter"),
    acquired := [] }

/-- A context without any string parameter, holding no object yet. -/
def emptyContext : ClientContext :=
  { address := 2,
    getStringParameter := fun _ => .error (Exn.std_exception "no parameter"),
    acquired := [] }

/-- A two-eye descriptor: 1920 x 1080, horizontally split. -/
def stereoSample : DisplayDescriptor :=
  sampleDescriptor .HORIZONTAL_SIDE_BY_SIDE 1920 1080 [⟨false⟩, ⟨true⟩]

/-- A one-eye descriptor: 1920 x 1080, full screen. -/
def monoSample : DisplayDescriptor :=
  sampleDescriptor .FULL_SCREEN 1920 1080 [⟨false⟩]

/-- A two-eye descriptor whose display mode is not a named enumerator. -/
def unmappedSample : DisplayDescriptor :=
  sampleDescriptor (.unmapped 7) 1920 1080 [⟨false⟩, ⟨false⟩]

/-- A descriptor with an empty eye list whose display mode is not a named
enumerator. -/
def unmappedEmptySample : DisplayDescriptor :=
  sampleDescriptor (.unmapped 7) 1920 1080 []

/-- A descriptor with an empty eye list: 1920 x 1080, full screen. -/
def emptyEyesSample : DisplayDescriptor :=
  sampleDescriptor .FULL_SCREEN 1920 1080 []

/-- A three-eye descriptor: 1920 x 1080, full screen, eye 0 rotated. -/
def threeEyesSample : DisplayDescriptor :=
  sampleDescriptor .FULL_SCREEN 1920 1080 [⟨true⟩, ⟨false⟩, ⟨false⟩]

/-- An eye as `create` builds it, with the given offset along X. -/
def sampleEye (x : ℚ) : ViewerEye :=
  { ctx := 1, offset := ⟨x, 0, 0⟩, path := HEAD_PATH, viewport := ⟨0, 0, 960, 1080⟩,
    rect := ⟨-90, 90, -90, 90⟩, rotate180 := false, pitchTilt := 0 }

/-- A display-config handle with one viewer and two eyes. -/
def sampleHandle : OSVR_DisplayConfigObject :=
  { ctx := 1,
    cfg := some { m_viewers := [{ ctx := 1, path := HEAD_PATH,
                                  m_eyes := [sampleEye (-1), sampleEye 1] }] } }

/-- The identity pose. -/
def identityPose : OSVR_Pose3 :=
  { translation := Vector3d.Zero, rotationW := 1, rotationX := 0, rotationY := 0,
    rotationZ := 0 }

/-! ## computeViewport -/

/-- Unfolding of `computeViewport` on a full-screen descriptor. -/
theorem computeViewport_full (e : Nat) (d : DisplayDescriptor)
    (hm : d.displayMode = .FULL_SCREEN) :
    computeViewport e d =
      .ok { left := 0, bottom := 0, width := d.displayWidth, height := d.displayHeight } := by
  simp [computeViewport, hm]

/-- Unfolding of `computeViewport` on a horizontally split descriptor. -/
theorem computeViewport_horizontal (e : Nat) (d : DisplayDescriptor)
    (hm : d.displayMode = .HORIZONTAL_SIDE_BY_SIDE) :
    computeViewport e d =
      .ok { left := (e : Int) * Int.tdiv d.displayWidth 2, bottom := 0,
            width := Int.tdiv d.displayWidth 2, height := d.displayHeight } := by
  simp [computeViewport, hm]

/-- Unfolding of `computeViewport` on a vertically split descriptor. -/
theorem computeViewport_vertical (e : Nat) (d : DisplayDescriptor)
    (hm : d.displayMode = .VERTICAL_SIDE_BY_SIDE) :
    computeViewport e d =
      .ok { left := 0, bottom := if e = 0 then Int.tdiv d.displayHeight 2 else 0,
            width := d.displayWidth, height := Int.tdiv d.displayHeight 2 } := by
  by_cases h0 : e = 0 <;> simp [computeViewport, hm, h0]

/-- Unfolding of `computeViewport` on a mode the switch has no case for. -/
theorem computeViewport_unmapped (e : Nat) (d : DisplayDescriptor) (raw : Int)
    (hm : d.displayMode = .unmapped raw) :
    computeViewport e d = .error UnrecognizedDisplayMode := by
  simp [computeViewport, hm]

/-- On non-negative integers the truncating quotient by two is the floor. -/
theorem tdiv_two_eq (a : Int) (ha : 0 ≤ a) : Int.tdiv a 2 = a / 2 :=
  Int.tdiv_eq_ediv ha (by decide)

/-- C1: for non-negative displayWidth and displayHeight, computeViewport
returns exactly the row of the specification's policy table for the
descriptor's mode (FULL_SCREEN: 0, 0, w, h; HORIZONTAL_SIDE_BY_SIDE: e*(w/2), 0,
w/2, h; VERTICAL_SIDE_BY_SIDE: 0, h/2 if e = 0 else 0, w, h/2), for every eye
index, in particular 0 and 1. -/
theorem C1_computeViewport_eq_policyTable (e : Nat) (d : DisplayDescriptor)
    (hw : 0 ≤ d.displayWidth) (hh : 0 ≤ d.displayHeight) :
    (computeViewport e d).toOption
      = policyTable d.displayMode e d.displayWidth d.displayHeight := by
  cases hm : d.displayMode with
  | FULL_SCREEN => rw [computeViewport_full e d hm]; rfl
  | HORIZONTAL_SIDE_BY_SIDE =>
    rw [computeViewport_horizontal e d hm, tdiv_two_eq _ hw]; rfl
  | VERTICAL_SIDE_BY_SIDE =>
    rw [computeViewport_vertical e d hm, tdiv_two_eq _ hh]; rfl
  | unmapped raw => rw [computeViewport_unmapped e d raw hm]; rfl

/-- C1, instance: at 1920 x 1080 the theorem applies, and the six viewports
are (0,0,1920,1080) for both eyes in full screen, (0,0,960,1080) and
(960,0,960,1080) in the horizontal split, (0,540,1920,540) and (0,0,1920,540)
in the vertical split. -/
theorem C1_computeViewport_1920_1080 :
    (computeViewport 1 (sampleDescriptor .HORIZONTAL_SIDE_BY_SIDE 1920 1080 [])).toOption
        = policyTable .HORIZONTAL_SIDE_BY_SIDE 1 1920 1080
    ∧ computeViewport 0 (sampleDescriptor .FULL_SCREEN 1920 1080 [])
        = .ok { left := 0, bottom := 0, width := 1920, height := 1080 }
    ∧ computeViewport 1 (sampleDescriptor .FULL_SCREEN 1920 1080 [])
        = .ok { left := 0, bottom := 0, width := 1920, height := 1080 }
    ∧ computeViewport 0 (sampleDescriptor .HORIZONTAL_SIDE_BY_SIDE 1920 1080 [])
        = .ok { left := 0, bottom := 0, width := 960, height := 1080 }
    ∧ computeViewport 1 (sampleDescriptor .HORIZONTAL_SIDE_BY_SIDE 1920 1080 [])
        = .ok { left := 960, bottom := 0, width := 960, height := 1080 }
    ∧ computeViewport 0 (sampleDescriptor .VERTICAL_SIDE_BY_SIDE 1920 1080 [])
        = .ok { left := 0, bottom := 540, width := 1920, height := 540 }
    ∧ computeViewport 1 (sampleDescriptor .VERTICAL_SIDE_BY_SIDE 1920 1080 [])
        = .ok { left := 0, bottom := 0, width := 1920, height := 540 } :=
  ⟨C1_computeViewport_eq_policyTable 1
      (sampleDescriptor .HORIZONTAL_SIDE_BY_SIDE 1920 1080 []) (by decide) (by decide),
    rfl, rfl, rfl, rfl, rfl, rfl⟩

/-- C2: computeViewport fails with the unrecognized-display-mode error exactly
when the descriptor's mode is none of FULL_SCREEN, HORIZONTAL_SIDE_BY_SIDE and
VERTICAL_SIDE_BY_SIDE, for every eye index and resolution; for each of the
three modes it returns a viewport, and it never fails in any other way. -/
theorem C2_computeViewport_error_iff (e : Nat) (d : DisplayDescriptor) :
    (computeViewport e d = .error UnrecognizedDisplayMode
        ↔ ¬ (d.displayMode = .FULL_SCREEN ∨ d.displayMode = .HORIZONTAL_SIDE_BY_SIDE
              ∨ d.displayMode = .VERTICAL_SIDE_BY_SIDE))
    ∧ ((∃ v, computeViewport e d = .ok v)
        ↔ (d.displayMode = .FULL_SCREEN ∨ d.displayMode = .HORIZONTAL_SIDE_BY_SIDE
              ∨ d.displayMode = .VERTICAL_SIDE_BY_SIDE))
    ∧ (∀ f, computeViewport e d = .error f → f = UnrecognizedDisplayMode) := by
  cases hm : d.displayMode with
  | FULL_SCREEN => rw [computeViewport_full e d hm]; simp
  | HORIZONTAL_SIDE_BY_SIDE => rw [computeViewport_horizontal e d hm]; simp
  | VERTICAL_SIDE_BY_SIDE => rw [computeViewport_vertical e d hm]; simp
  | unmapped raw => rw [computeViewport_unmapped e d raw hm]; simp

/-- C6: for a recognized mode, an eye index in {0,1} and positive
displayWidth and displayHeight, computeViewport returns a viewport with
left >= 0, bottom >= 0, left + width <= displayWidth and
bottom + height <= displayHeight. -/
theorem C6_viewport_within_display (e : Nat) (d : DisplayDescriptor)
    (he : e = 0 ∨ e = 1) (hw : 0 < d.displayWidth) (hh : 0 < d.displayHeight)
    (hm : d.displayMode.recognized = true) :
    ∃ v, computeViewport e d = .ok v ∧ 0 ≤ v.left ∧ 0 ≤ v.bottom
      ∧ v.left + v.width ≤ d.displayWidth ∧ v.bottom + v.height ≤ d.displayHeight := by
  have h2w := tdiv_two_eq d.displayWidth (le_of_lt hw)
  have h2h := tdiv_two_eq d.displayHeight (le_of_lt hh)
  cases hmode : d.displayMode with
  | FULL_SCREEN =>
    refine ⟨_, computeViewport_full e d hmode, ?_⟩
    simp only []
    omega
  | HORIZONTAL_SIDE_BY_SIDE =>
    refine ⟨_, computeViewport_horizontal e d hmode, ?_⟩
    simp only [h2w]
    rcases he with h | h <;> subst h <;> simp <;> omega
  | VERTICAL_SIDE_BY_SIDE =>
    refine ⟨_, computeViewport_vertical e d hmode, ?_⟩
    simp only [h2h]
    rcases he with h | h <;> subst h <;> simp <;> omega
  | unmapped raw => simp [hmode, DisplayMode.recognized] at hm

/-- C6, instance: eye 1 of a horizontally split 1921 x 1081 display (both
dimensions odd). -/
theorem C6_viewport_within_display_odd :
    ∃ v, computeViewport 1 (sampleDescriptor .HORIZONTAL_SIDE_BY_SIDE 1921 1081 []) = .ok v
      ∧ 0 ≤ v.left ∧ 0 ≤ v.bottom ∧ v.left + v.width ≤ 1921 ∧ v.bottom + v.height ≤ 1081 :=
  C6_viewport_within_display 1 (sampleDescriptor .HORIZONTAL_SIDE_BY_SIDE 1921 1081 [])
    (Or.inr rfl) (by decide) (by decide) rfl

/-- C7, refuted as stated: on a horizontally split display of 1 x 1 pixels
(both dimensions positive) eye 0 gets the viewport (0,0,0,1), whose width is
not positive. -/
theorem C7_width_zero_at_1x1 :
    0 < (sampleDescriptor .HORIZONTAL_SIDE_BY_SIDE 1 1 []).displayWidth
    ∧ 0 < (sampleDescriptor .HORIZONTAL_SIDE_BY_SIDE 1 1 []).displayHeight
    ∧ (sampleDescriptor .HORIZONTAL_SIDE_BY_SIDE 1 1 []).displayMode.recognized = true
    ∧ computeViewport 0 (sampleDescriptor .HORIZONTAL_SIDE_BY_SIDE 1 1 [])
        = .ok { left := 0, bottom := 0, width := 0, height := 1 }
    ∧ ¬ ∃ v, computeViewport 0 (sampleDescriptor .HORIZONTAL_SIDE_BY_SIDE 1 1 []) = .ok v
          ∧ 0 < v.width ∧ 0 < v.height := by
  refine ⟨by decide, by decide, rfl, rfl, ?_⟩
  rintro ⟨v, hv, hpos, -⟩
  have h : v = { left := 0, bottom := 0, width := 0, height := 1 } := by
    have h0 : computeViewport 0 (sampleDescriptor .HORIZONTAL_SIDE_BY_SIDE 1 1 [])
        = .ok { left := 0, bottom := 0, width := 0, height := 1 } := rfl
    rw [h0] at hv
    exact (Except.ok.inj hv).symm
  subst h
  exact absurd hpos (by decide)

/-- C7, amended: for positive displayWidth and displayHeight, a recognized
mode and any eye index, computeViewport returns a viewport whose width and
height are both positive exactly when the halved dimension is at least 2
(displayWidth in HORIZONTAL_SIDE_BY_SIDE, displayHeight in
VERTICAL_SIDE_BY_SIDE; no condition in FULL_SCREEN). -/
theorem C7_viewport_size_positive_iff (e : Nat) (d : DisplayDescriptor)
    (hw : 0 < d.displayWidth) (hh : 0 < d.displayHeight)
    (hm : d.displayMode.recognized = true) :
    ∃ v, computeViewport e d = .ok v
      ∧ ((0 < v.width ∧ 0 < v.height)
          ↔ ((d.displayMode = .HORIZONTAL_SIDE_BY_SIDE → 2 ≤ d.displayWidth)
              ∧ (d.displayMode = .VERTICAL_SIDE_BY_SIDE → 2 ≤ d.displayHeight))) := by
  have h2w := tdiv_two_eq d.displayWidth (le_of_lt hw)
  have h2h := tdiv_two_eq d.displayHeight (le_of_lt hh)
  cases hmode : d.displayMode with
  | FULL_SCREEN =>
    refine ⟨_, computeViewport_full e d hmode, ?_⟩
    simp [hw, hh]
  | HORIZONTAL_SIDE_BY_SIDE =>
    refine ⟨_, computeViewport_horizontal e d hmode, ?_⟩
    simp only [h2w]
    simp
    omega
  | VERTICAL_SIDE_BY_SIDE =>
    refine ⟨_, computeViewport_vertical e d hmode, ?_⟩
    simp only [h2h]
    simp
    omega
  | unmapped raw => simp [hmode, DisplayMode.recognized] at hm

/-- C7, amended, instance: eye 1 of a vertically split 3 x 2 display has the
positive size 3 x 1. -/
theorem C7_viewport_size_positive_3x2 :
    ∃ v, computeViewport 1 (sampleDescriptor .VERTICAL_SIDE_BY_SIDE 3 2 []) = .ok v
      ∧ ((0 < v.width ∧ 0 < v.height)
          ↔ (((sampleDescriptor .VERTICAL_SIDE_BY_SIDE 3 2 []).displayMode
                  = .HORIZONTAL_SIDE_BY_SIDE → (2 : Int) ≤ 3)
              ∧ ((sampleDescriptor .VERTICAL_SIDE_BY_SIDE 3 2 []).displayMode
                  = .VERTICAL_SIDE_BY_SIDE → (2 : Int) ≤ 2))) :=
  C7_viewport_size_positive_iff 1 (sampleDescriptor .VERTICAL_SIDE_BY_SIDE 3 2 [])
    (by decide) (by decide) rfl

/-- C10: for non-negative displayWidth and displayHeight, in
HORIZONTAL_SIDE_BY_SIDE eye 0 is the left column (left = 0) and ends where eye
1 starts (eye0.left + eye0.width = eye1.left); in VERTICAL_SIDE_BY_SIDE eye 1
is the bottom row (bottom = 0) and eye 0 starts where eye 1 ends
(eye1.bottom + eye1.height = eye0.bottom); in both modes the two viewports
have the same non-negative width and height and agree in the other
coordinate, and when the split dimension is even the far edge of the second
half is the display edge, the unsplit dimension being covered in full. -/
theorem C10_split_halves_adjacent (d : DisplayDescriptor)
    (hw : 0 ≤ d.displayWidth) (hh : 0 ≤ d.displayHeight) :
    (d.displayMode = .HORIZONTAL_SIDE_BY_SIDE →
      ∃ v0 v1, computeViewport 0 d = .ok v0 ∧ computeViewport 1 d = .ok v1
        ∧ v0.left = 0 ∧ v0.left + v0.width = v1.left
        ∧ v0.width = v1.width ∧ v0.height = v1.height ∧ 0 ≤ v0.width
        ∧ v0.bottom = 0 ∧ v1.bottom = 0 ∧ v0.height = d.displayHeight
        ∧ (d.displayWidth % 2 = 0 → v1.left + v1.width = d.displayWidth))
    ∧ (d.displayMode = .VERTICAL_SIDE_BY_SIDE →
      ∃ v0 v1, computeViewport 0 d = .ok v0 ∧ computeViewport 1 d = .ok v1
        ∧ v1.bottom = 0 ∧ v1.bottom + v1.height = v0.bottom
        ∧ v0.width = v1.width ∧ v0.height = v1.height ∧ 0 ≤ v0.height
        ∧ v0.left = 0 ∧ v1.left = 0 ∧ v0.width = d.displayWidth
        ∧ (d.displayHeight % 2 = 0 → v0.bottom + v0.height = d.displayHeight)) := by
  have h2w := tdiv_two_eq d.displayWidth hw
  have h2h := tdiv_two_eq d.displayHeight hh
  constructor
  · intro hmode
    refine ⟨_, _, computeViewport_horizontal 0 d hmode,
      computeViewport_horizontal 1 d hmode, ?_⟩
    simp only [h2w]
    simp
    omega
  · intro hmode
    refine ⟨_, _, computeViewport_vertical 0 d hmode,
      computeViewport_vertical 1 d hmode, ?_⟩
    simp only [h2h]
    simp
    omega

/-- C10, instance: the horizontally split 1920 x 1080 display. -/
theorem C10_split_halves_1920_1080 :
    ∃ v0 v1,
      computeViewport 0 (sampleDescriptor .HORIZONTAL_SIDE_BY_SIDE 1920 1080 []) = .ok v0
        ∧ computeViewport 1 (sampleDescriptor .HORIZONTAL_SIDE_BY_SIDE 1920 1080 []) = .ok v1
        ∧ v0.left = 0 ∧ v0.left + v0.width = v1.left
        ∧ v0.width = v1.width ∧ v0.height = v1.height ∧ 0 ≤ v0.width
        ∧ v0.bottom = 0 ∧ v1.bottom = 0 ∧ v0.height = 1080
        ∧ ((1920 : Int) % 2 = 0 → v1.left + v1.width = 1920) :=
  (C10_split_halves_adjacent (sampleDescriptor .HORIZONTAL_SIDE_BY_SIDE 1920 1080 [])
    (by decide) (by decide)).1 rfl

/-! ## DisplayConfigFactory::create -/

/-- A recognized mode makes `computeViewport` return. -/
theorem computeViewport_ok_of_recognized (e : Nat) (d : DisplayDescriptor)
    (hm : d.displayMode.recognized = true) : ∃ v, computeViewport e d = .ok v := by
  cases hmode : d.displayMode with
  | FULL_SCREEN => exact ⟨_, computeViewport_full e d hmode⟩
  | HORIZONTAL_SIDE_BY_SIDE => exact ⟨_, computeViewport_horizontal e d hmode⟩
  | VERTICAL_SIDE_BY_SIDE => exact ⟨_, computeViewport_vertical e d hmode⟩
  | unmapped raw => simp [hmode, DisplayMode.recognized] at hm

/-- An unrecognized mode makes `computeViewport` throw. -/
theorem computeViewport_error_of_unrecognized (e : Nat) (d : DisplayDescriptor)
    (hm : d.displayMode.recognized = false) :
    computeViewport e d = .error UnrecognizedDisplayMode := by
  cases hmode : d.displayMode with
  | FULL_SCREEN => simp [hmode, DisplayMode.recognized] at hm
  | HORIZONTAL_SIDE_BY_SIDE => simp [hmode, DisplayMode.recognized] at hm
  | VERTICAL_SIDE_BY_SIDE => simp [hmode, DisplayMode.recognized] at hm
  | unmapped raw => exact computeViewport_unmapped e d raw hmode

/-- The result of `create` on a descriptor with exactly two eyes whose two
viewports are computed: one viewer with eyes 0 and 1, in this order. -/
theorem create_stereo (ext : Externals) (ctx : ClientContext) (s : String)
    (desc : DisplayDescriptor) (a b : EyeDescriptor) (v0 v1 : Viewport)
    (hs : ctx.getStringParameter "/display" = .ok s)
    (hp : ext.parseDescriptor s = .ok desc) (he : desc.eyes = [a, b])
    (h0 : computeViewport 0 desc = .ok v0) (h1 : computeViewport 1 desc = .ok v1) :
    DisplayConfigFactory.create ext ctx = .ok { m_viewers := [
      { ctx := ctx.address, path := HEAD_PATH, m_eyes := [
        { ctx := ctx.address,
          offset := Vector3d.scale (-1) (Vector3d.scale (desc.IPDMeters / 2) Vector3d.UnitX),
          path := HEAD_PATH, viewport := v0, rect := computeRect ext desc,
          rotate180 := a.m_rotate180, pitchTilt := desc.pitchTilt },
        { ctx := ctx.address,
          offset := Vector3d.scale 1 (Vector3d.scale (desc.IPDMeters / 2) Vector3d.UnitX),
          path := HEAD_PATH, viewport := v1, rect := computeRect ext desc,
          rotate180 := b.m_rotate180, pitchTilt := desc.pitchTilt }] }] } := by
  simp [DisplayConfigFactory.create, hs, hp, liftExn, he, emplaceEyes, h0, h1]
  norm_num

/-- The result of `create` on a descriptor whose eye count is not two, whose
eye 0 exists and whose viewport 0 is computed: one viewer with the single eye
0. -/
theorem create_mono (ext : Externals) (ctx : ClientContext) (s : String)
    (desc : DisplayDescriptor) (a : EyeDescriptor) (v0 : Viewport)
    (hs : ctx.getStringParameter "/display" = .ok s)
    (hp : ext.parseDescriptor s = .ok desc) (hn : desc.eyes.length ≠ 2)
    (he : desc.eyes[0]? = some a) (h0 : computeViewport 0 desc = .ok v0) :
    DisplayConfigFactory.create ext ctx = .ok { m_viewers := [
      { ctx := ctx.address, path := HEAD_PATH, m_eyes := [
        { ctx := ctx.address, offset := Vector3d.scale (-1) Vector3d.Zero,
          path := HEAD_PATH, viewport := v0, rect := computeRect ext desc,
          rotate180 := a.m_rotate180, pitchTilt := desc.pitchTilt }] }] } := by
  simp [DisplayConfigFactory.create, hs, hp, liftExn, hn, emplaceEyes, h0, he]

/-- A successful run of the eye loop appends one eye per visited index. -/
theorem emplaceEyes_length (ext : Externals) (ctx : ClientContext) (desc : DisplayDescriptor)
    (offset : Vector3d) (indices : List Nat) :
    ∀ (m_eyes result : List ViewerEye),
      emplaceEyes ext ctx desc offset indices m_eyes = .ok result →
      result.length = m_eyes.length + indices.length := by
  induction indices with
  | nil =>
    intro m_eyes result h
    simp [emplaceEyes] at h
    simp [h]
  | cons eye rest ih =>
    intro m_eyes result h
    unfold emplaceEyes at h
    cases hd : desc.eyes[eye]? with
    | none => simp [hd] at h
    | some eyeDesc =>
      cases hv : computeViewport eye desc with
      | error f => simp [hv, hd] at h
      | ok viewport =>
        simp only [hv, hd] at h
        have := ih _ _ h
        simp at this
        simp [this]
        omega

/-- Whenever `create` returns, the descriptor was fetched and parsed, and the
object holds one viewer whose eye count is 2 for a two-eye descriptor and 1
otherwise. -/
theorem create_ok_shape (ext : Externals) (ctx : ClientContext) (cfg : DisplayConfig)
    (h : DisplayConfigFactory.create ext ctx = .ok cfg) :
    ∃ s desc m_eyes, ctx.getStringParameter "/display" = .ok s
      ∧ ext.parseDescriptor s = .ok desc
      ∧ cfg = { m_viewers := [{ ctx := ctx.address, path := HEAD_PATH, m_eyes := m_eyes }] }
      ∧ m_eyes.length = (if desc.eyes.length = 2 then 2 else 1) := by
  unfold DisplayConfigFactory.create at h
  cases hs : ctx.getStringParameter "/display" with
  | error e => simp [hs, liftExn] at h
  | ok s =>
    cases hp : ext.parseDescriptor s with
    | error e => simp [hs, hp, liftExn] at h
    | ok desc =>
      simp only [hs, hp, liftExn] at h
      by_cases hn : desc.eyes.length = 2
      · simp only [hn, if_true] at h
        cases hl : emplaceEyes ext ctx desc
            (Vector3d.scale (desc.IPDMeters / 2) Vector3d.UnitX) [0, 1] [] with
        | error f => simp [hl] at h
        | ok m_eyes =>
          simp only [hl] at h
          have hlen := emplaceEyes_length ext ctx desc _ _ _ _ hl
          refine ⟨s, desc, m_eyes, rfl, hp, ?_, ?_⟩
          · exact (Except.ok.inj h).symm
          · simpa [hn] using hlen
      · simp only [hn, if_false] at h
        cases hl : emplaceEyes ext ctx desc Vector3d.Zero [0] [] with
        | error f => simp [hl] at h
        | ok m_eyes =>
          simp only [hl] at h
          have hlen := emplaceEyes_length ext ctx desc _ _ _ _ hl
          refine ⟨s, desc, m_eyes, rfl, hp, ?_, ?_⟩
          · exact (Except.ok.inj h).symm
          · simpa [hn] using hlen

/-- C3: for a descriptor with exactly two eyes and a recognized mode, create
returns one viewer with two eyes whose offsets are (-IPD/2, 0, 0) for eye 0 and
(+IPD/2, 0, 0) for eye 1, so they are negations of each other and differ by IPD
along X.  No sign condition on IPD is needed, so this covers every IPD >= 0. -/
theorem C3_stereo_eye_offsets (ext : Externals) (ctx : ClientContext) (s : String)
    (desc : DisplayDescriptor)
    (hs : ctx.getStringParameter "/display" = .ok s)
    (hp : ext.parseDescriptor s = .ok desc)
    (hn : desc.eyes.length = 2) (hm : desc.displayMode.recognized = true) :
    ∃ cfg viewer eye0 eye1, DisplayConfigFactory.create ext ctx = .ok cfg
      ∧ cfg.m_viewers = [viewer] ∧ viewer.m_eyes = [eye0, eye1]
      ∧ eye0.offset = { x := -(desc.IPDMeters / 2), y := 0, z := 0 }
      ∧ eye1.offset = { x := desc.IPDMeters / 2, y := 0, z := 0 }
      ∧ eye0.offset = Vector3d.neg eye1.offset
      ∧ eye1.offset.x - eye0.offset.x = desc.IPDMeters := by
  obtain ⟨v0, h0⟩ := computeViewport_ok_of_recognized 0 desc hm
  obtain ⟨v1, h1⟩ := computeViewport_ok_of_recognized 1 desc hm
  obtain ⟨a, b, he⟩ := List.length_eq_two.mp hn
  refine ⟨_, _, _, _, create_stereo ext ctx s desc a b v0 v1 hs hp he h0 h1, rfl, rfl, ?_⟩
  simp [Vector3d.scale, Vector3d.UnitX, Vector3d.neg]

/-- C4: for a descriptor with exactly one eye and a recognized mode, create
returns a DisplayConfig with exactly one viewer, which has exactly one eye,
and that eye's offset is the zero vector whatever the IPD is. -/
theorem C4_mono_single_eye_zero_offset (ext : Externals) (ctx : ClientContext) (s : String)
    (desc : DisplayDescriptor)
    (hs : ctx.getStringParameter "/display" = .ok s)
    (hp : ext.parseDescriptor s = .ok desc)
    (hn : desc.eyes.length = 1) (hm : desc.displayMode.recognized = true) :
    ∃ cfg viewer eye, DisplayConfigFactory.create ext ctx = .ok cfg
      ∧ cfg.m_viewers = [viewer] ∧ viewer.m_eyes = [eye]
      ∧ eye.offset = Vector3d.Zero := by
  obtain ⟨v0, h0⟩ := computeViewport_ok_of_recognized 0 desc hm
  obtain ⟨a, he⟩ := List.length_eq_one.mp hn
  have hn2 : desc.eyes.length ≠ 2 := by omega
  have he0 : desc.eyes[0]? = some a := by simp [he]
  refine ⟨_, _, _, create_mono ext ctx s desc a v0 hs hp hn2 he0 h0, rfl, rfl, ?_⟩
  simp [Vector3d.scale, Vector3d.Zero]

/-- C3, instance: the two-eye sample descriptor, whose IPD is 13/200. -/
theorem C3_stereo_eye_offsets_sample :
    ∃ cfg viewer eye0 eye1,
      DisplayConfigFactory.create (sampleExternals stereoSample) sampleContext = .ok cfg
      ∧ cfg.m_viewers = [viewer] ∧ viewer.m_eyes = [eye0, eye1]
      ∧ eye0.offset = { x := -(stereoSample.IPDMeters / 2), y := 0, z := 0 }
      ∧ eye1.offset = { x := stereoSample.IPDMeters / 2, y := 0, z := 0 }
      ∧ eye0.offset = Vector3d.neg eye1.offset
      ∧ eye1.offset.x - eye0.offset.x = stereoSample.IPDMeters :=
  C3_stereo_eye_offsets (sampleExternals stereoSample) sampleContext "descriptor"
    stereoSample rfl rfl rfl rfl

/-- C4, instance: the one-eye sample descriptor, whose IPD is 13/200. -/
theorem C4_mono_single_eye_sample :
    ∃ cfg viewer eye,
      DisplayConfigFactory.create (sampleExternals monoSample) sampleContext = .ok cfg
      ∧ cfg.m_viewers = [viewer] ∧ viewer.m_eyes = [eye]
      ∧ eye.offset = Vector3d.Zero :=
  C4_mono_single_eye_zero_offset (sampleExternals monoSample) sampleContext "descriptor"
    monoSample rfl rfl rfl rfl

/-! ## The C entry points -/

/-- Reading the viewer count of a handle whose config has one viewer. -/
theorem getNumViewers_of_shape (address : Nat) (v : Viewer) (held : Nat) :
    osvrClientGetNumViewers (some { ctx := address, cfg := some { m_viewers := [v] } })
      (some held) = .ok (.OSVR_RETURN_SUCCESS, some 1) := by
  simp [osvrClientGetNumViewers, OSVR_DisplayConfigObject.deref, DisplayConfig.size]

/-- Reading the eye count of viewer 0 of a handle whose config has one
viewer. -/
theorem getNumEyes_of_shape (assertionsEnabled : Bool) (address : Nat) (v : Viewer)
    (held : Nat) :
    osvrClientGetNumEyesForViewer assertionsEnabled
      (some { ctx := address, cfg := some { m_viewers := [v] } }) 0 (some held)
      = .ok (.OSVR_RETURN_SUCCESS, some v.m_eyes.length) := by
  cases assertionsEnabled <;>
    simp [osvrClientGetNumEyesForViewer, BOOST_ASSERT_MSG, OSVR_DisplayConfigObject.deref,
      DisplayConfig.getViewer, Viewer.size]

/-- C5: for a descriptor with n eyes, n in {1,2}, and a recognized mode,
create succeeds and the handle built from its result reports, through
osvrClientGetNumViewers and osvrClientGetNumEyesForViewer, one viewer and n
eyes for viewer 0; and whenever create succeeds, for any descriptor, the
reported viewer count is 1 and the reported eye count is 1 or 2. -/
theorem C5_eye_count_round_trip (ext : Externals) (ctx : ClientContext)
    (assertionsEnabled : Bool) (heldViewers heldEyes : Nat) :
    (∀ s desc, ctx.getStringParameter "/display" = .ok s → ext.parseDescriptor s = .ok desc →
      desc.eyes.length = 1 ∨ desc.eyes.length = 2 → desc.displayMode.recognized = true →
      ∃ cfg, DisplayConfigFactory.create ext ctx = .ok cfg
        ∧ OSVR_DisplayConfigObject.construct ext ctx = .ok { ctx := ctx.address, cfg := some cfg }
        ∧ osvrClientGetNumViewers (some { ctx := ctx.address, cfg := some cfg })
            (some heldViewers) = .ok (.OSVR_RETURN_SUCCESS, some 1)
        ∧ osvrClientGetNumEyesForViewer assertionsEnabled
            (some { ctx := ctx.address, cfg := some cfg }) 0 (some heldEyes)
            = .ok (.OSVR_RETURN_SUCCESS, some desc.eyes.length))
    ∧ (∀ cfg, DisplayConfigFactory.create ext ctx = .ok cfg →
      osvrClientGetNumViewers (some { ctx := ctx.address, cfg := some cfg })
          (some heldViewers) = .ok (.OSVR_RETURN_SUCCESS, some 1)
      ∧ ∃ n, osvrClientGetNumEyesForViewer assertionsEnabled
              (some { ctx := ctx.address, cfg := some cfg }) 0 (some heldEyes)
              = .ok (.OSVR_RETURN_SUCCESS, some n)
          ∧ (n = 1 ∨ n = 2)) := by
  have key : ∀ cfg, DisplayConfigFactory.create ext ctx = .ok cfg →
      ∃ s desc, ctx.getStringParameter "/display" = .ok s ∧ ext.parseDescriptor s = .ok desc
        ∧ osvrClientGetNumViewers (some { ctx := ctx.address, cfg := some cfg })
            (some heldViewers) = .ok (.OSVR_RETURN_SUCCESS, some 1)
        ∧ osvrClientGetNumEyesForViewer assertionsEnabled
            (some { ctx := ctx.address, cfg := some cfg }) 0 (some heldEyes)
            = .ok (.OSVR_RETURN_SUCCESS, some (if desc.eyes.length = 2 then 2 else 1)) := by
    intro cfg hc
    obtain ⟨s, desc, m_eyes, hs, hp, hcfg, hlen⟩ := create_ok_shape ext ctx cfg hc
    subst hcfg
    refine ⟨s, desc, hs, hp, getNumViewers_of_shape _ _ _, ?_⟩
    rw [getNumEyes_of_shape, ← hlen]
  constructor
  · intro s desc hs hp hn hm
    obtain ⟨v0, h0⟩ := computeViewport_ok_of_recognized 0 desc hm
    obtain ⟨v1, h1⟩ := computeViewport_ok_of_recognized 1 desc hm
    have hcreate : ∃ cfg, DisplayConfigFactory.create ext ctx = .ok cfg := by
      rcases hn with hn | hn
      · obtain ⟨a, he⟩ := List.length_eq_one.mp hn
        exact ⟨_, create_mono ext ctx s desc a v0 hs hp (by omega) (by simp [he]) h0⟩
      · obtain ⟨a, b, he⟩ := List.length_eq_two.mp hn
        exact ⟨_, create_stereo ext ctx s desc a b v0 v1 hs hp he h0 h1⟩
    obtain ⟨cfg, hc⟩ := hcreate
    obtain ⟨s2, desc2, hs2, hp2, hviewers, heyes⟩ := key cfg hc
    have hs_eq : s2 = s := by
      rw [hs] at hs2
      exact (Except.ok.inj hs2).symm
    subst hs_eq
    have hd_eq : desc2 = desc := by
      rw [hp] at hp2
      exact (Except.ok.inj hp2).symm
    subst hd_eq
    refine ⟨cfg, hc, ?_, hviewers, ?_⟩
    · simp [OSVR_DisplayConfigObject.construct, hc]
    · rw [heyes]
      rcases hn with hn | hn <;> simp [hn]
  · intro cfg hc
    obtain ⟨s, desc, _, _, hviewers, heyes⟩ := key cfg hc
    refine ⟨hviewers, _, heyes, ?_⟩
    by_cases h2 : desc.eyes.length = 2 <;> simp [h2]

/-- C5, instance: the two-eye and the one-eye sample descriptors are read back
as one viewer with 2 eyes and with 1 eye. -/
theorem C5_eye_count_round_trip_sample :
    (∃ cfg, DisplayConfigFactory.create (sampleExternals stereoSample) sampleContext = .ok cfg
        ∧ OSVR_DisplayConfigObject.construct (sampleExternals stereoSample) sampleContext
            = .ok { ctx := sampleContext.address, cfg := some cfg }
        ∧ osvrClientGetNumViewers (some { ctx := sampleContext.address, cfg := some cfg })
            (some 0) = .ok (.OSVR_RETURN_SUCCESS, some 1)
        ∧ osvrClientGetNumEyesForViewer true
            (some { ctx := sampleContext.address, cfg := some cfg }) 0 (some 0)
            = .ok (.OSVR_RETURN_SUCCESS, some 2))
    ∧ (∃ cfg, DisplayConfigFactory.create (sampleExternals monoSample) sampleContext = .ok cfg
        ∧ OSVR_DisplayConfigObject.construct (sampleExternals monoSample) sampleContext
            = .ok { ctx := sampleContext.address, cfg := some cfg }
        ∧ osvrClientGetNumViewers (some { ctx := sampleContext.address, cfg := some cfg })
            (some 0) = .ok (.OSVR_RETURN_SUCCESS, some 1)
        ∧ osvrClientGetNumEyesForViewer true
            (some { ctx := sampleContext.address, cfg := some cfg }) 0 (some 0)
            = .ok (.OSVR_RETURN_SUCCESS, some 1)) :=
  ⟨(C5_eye_count_round_trip (sampleExternals stereoSample) sampleContext true 0 0).1
      "descriptor" stereoSample rfl rfl (Or.inr rfl) rfl,
    (C5_eye_count_round_trip (sampleExternals monoSample) sampleContext true 0 0).1
      "descriptor" monoSample rfl rfl (Or.inl rfl) rfl⟩

/-- When the context cannot supply "/display", `create` propagates the
exception of `getStringParameter`. -/
theorem create_parameter_missing (ext : Externals) (ctx : ClientContext) (e : Exn)
    (hs : ctx.getStringParameter "/display" = .error e) :
    DisplayConfigFactory.create ext ctx = .error (Fault.thrown e) := by
  simp [DisplayConfigFactory.create, hs, liftExn]

/-- When the descriptor's mode is unrecognized and the eye list is not empty,
`create` propagates the exception of `computeViewport`, whatever the eye
count: the first iteration of the loop throws. -/
theorem create_unrecognized_mode (ext : Externals) (ctx : ClientContext) (s : String)
    (desc : DisplayDescriptor)
    (hs : ctx.getStringParameter "/display" = .ok s)
    (hp : ext.parseDescriptor s = .ok desc)
    (hm : desc.displayMode.recognized = false) (hne : desc.eyes ≠ []) :
    DisplayConfigFactory.create ext ctx = .error UnrecognizedDisplayMode := by
  have h0 := computeViewport_error_of_unrecognized 0 desc hm
  obtain ⟨a, rest, he⟩ := List.exists_cons_of_ne_nil hne
  have he0 : desc.eyes[0]? = some a := by simp [he]
  by_cases hn : desc.eyes.length = 2 <;>
    simp [DisplayConfigFactory.create, hs, hp, liftExn, hn, emplaceEyes, h0, he0]

/-- A call of `osvrClientGetDisplay` in which `create` throws: failure, the
context and the cell `*disp` as they were. -/
theorem getDisplay_of_create_thrown (ext : Externals) (ctx : ClientContext) (e : Exn)
    (disp : Option (Option OSVR_DisplayConfigObject))
    (hc : DisplayConfigFactory.create ext ctx = .error (Fault.thrown e)) :
    osvrClientGetDisplay ext (some ctx) disp
      = .ok { code := .OSVR_RETURN_FAILURE, ctx := some ctx, disp := disp } := by
  cases disp with
  | none => simp [osvrClientGetDisplay]
  | some held => simp [osvrClientGetDisplay, OSVR_DisplayConfigObject.construct, hc]

/-- Propagation of construction-time errors through `osvrClientGetDisplay`:
whenever `create` fails with an exception, the call returns
`OSVR_RETURN_FAILURE`, leaves the context as it was (no object is acquired)
and leaves the cell `*disp` as it was (no handle is stored); `create` fails so
when the context cannot supply the "/display" string parameter, and when the
descriptor's display mode is unrecognized and the eye list is not empty (eye
count 1, 2, 3 and more); and whenever the call returns `OSVR_RETURN_SUCCESS`,
for any arguments, `*disp` holds a non-null handle whose internal config is
the non-null result of `create`, and that handle is the one object the context
acquired.  The empty eye list is not covered: there the read `eyesDesc[0]` is
past the end, see `create_empty_eyes`. -/
theorem getDisplay_construction_errors (ext : Externals) :
    (∀ (ctx : ClientContext) (disp : Option (Option OSVR_DisplayConfigObject)) (e : Exn),
      DisplayConfigFactory.create ext ctx = .error (Fault.thrown e) →
      osvrClientGetDisplay ext (some ctx) disp
        = .ok { code := .OSVR_RETURN_FAILURE, ctx := some ctx, disp := disp })
    ∧ (∀ (ctx : ClientContext) (e : Exn), ctx.getStringParameter "/display" = .error e →
      DisplayConfigFactory.create ext ctx = .error (Fault.thrown e))
    ∧ (∀ (ctx : ClientContext) (s : String) (desc : DisplayDescriptor),
      ctx.getStringParameter "/display" = .ok s → ext.parseDescriptor s = .ok desc →
      desc.displayMode.recognized = false → desc.eyes ≠ [] →
      DisplayConfigFactory.create ext ctx
        = .error (Fault.thrown (Exn.logic_error unrecognizedDisplayModeText)))
    ∧ (∀ (ctxPtr : Option ClientContext) (disp : Option (Option OSVR_DisplayConfigObject))
        (r : GetDisplayResult),
      osvrClientGetDisplay ext ctxPtr disp = .ok r → r.code = .OSVR_RETURN_SUCCESS →
      ∃ ctx obj cfg, ctxPtr = some ctx ∧ r.disp = some (some obj) ∧ obj.cfg = some cfg
        ∧ DisplayConfigFactory.create ext ctx = .ok cfg
        ∧ r.ctx = some (ctx.acquireObject obj)) := by
  refine ⟨?_, ?_, ?_, ?_⟩
  · intro ctx disp e hc
    exact getDisplay_of_create_thrown ext ctx e disp hc
  · intro ctx e hs
    exact create_parameter_missing ext ctx e hs
  · intro ctx s desc hs hp hm hne
    exact create_unrecognized_mode ext ctx s desc hs hp hm hne
  · intro ctxPtr disp r hr hcode
    cases disp with
    | none =>
      simp [osvrClientGetDisplay] at hr
      subst hr
      simp at hcode
    | some held =>
      cases ctxPtr with
      | none =>
        simp [osvrClientGetDisplay] at hr
        subst hr
        simp at hcode
      | some ctx =>
        cases hc : DisplayConfigFactory.create ext ctx with
        | error f =>
          cases f with
          | thrown e =>
            simp [osvrClientGetDisplay, OSVR_DisplayConfigObject.construct, hc] at hr
            subst hr
            simp at hcode
          | assertion_failed msg =>
            simp [osvrClientGetDisplay, OSVR_DisplayConfigObject.construct, hc] at hr
          | undefined_behaviour what =>
            simp [osvrClientGetDisplay, OSVR_DisplayConfigObject.construct, hc] at hr
        | ok cfg =>
          simp [osvrClientGetDisplay, OSVR_DisplayConfigObject.construct, hc] at hr
          subst hr
          exact ⟨ctx, _, cfg, rfl, rfl, rfl, hc, rfl⟩

/-- Instances of the propagation of construction-time errors: a context
without parameters, and a context whose two-eye descriptor has an unmapped
display mode, each with a cell that holds a null handle; and the successful
call on the two-eye sample descriptor. -/
theorem getDisplay_construction_errors_sample :
    osvrClientGetDisplay (sampleExternals stereoSample) (some emptyContext) (some none)
        = .ok { code := .OSVR_RETURN_FAILURE, ctx := some emptyContext, disp := some none }
    ∧ osvrClientGetDisplay (sampleExternals unmappedSample) (some sampleContext) (some none)
        = .ok { code := .OSVR_RETURN_FAILURE, ctx := some sampleContext, disp := some none }
    ∧ (∃ r obj cfg,
        osvrClientGetDisplay (sampleExternals stereoSample) (some sampleContext) (some none)
          = .ok r
        ∧ r.code = .OSVR_RETURN_SUCCESS ∧ r.disp = some (some obj) ∧ obj.cfg = some cfg) :=
  ⟨(getDisplay_construction_errors (sampleExternals stereoSample)).1
      emptyContext (some none) _
      ((getDisplay_construction_errors (sampleExternals stereoSample)).2.1
        emptyContext _ rfl),
    (getDisplay_construction_errors (sampleExternals unmappedSample)).1
      sampleContext (some none) _
      ((getDisplay_construction_errors (sampleExternals unmappedSample)).2.2.1
        sampleContext "descriptor" unmappedSample rfl rfl rfl (by decide)),
    ⟨_, _, _, rfl, rfl, rfl, rfl⟩⟩

/-- C9, refuted as stated: on the sample handle, viewer 0, eye 0 and a cell
holding the identity pose, a pose query that throws NoPoseYet and one that
throws another exception give the caller the very same result,
OSVR_RETURN_FAILURE with the cell untouched, with assertions compiled in or
out; the returned value does not tell the two apart. -/
theorem C9_failure_kinds_same_result :
    osvrClientGetViewerEyePose true (fun _ => .error Exn.NoPoseYet)
        (some sampleHandle) 0 0 (some identityPose)
      = .ok (.OSVR_RETURN_FAILURE, some identityPose)
    ∧ osvrClientGetViewerEyePose true (fun _ => .error (Exn.std_exception "tracker failure"))
        (some sampleHandle) 0 0 (some identityPose)
      = .ok (.OSVR_RETURN_FAILURE, some identityPose)
    ∧ osvrClientGetViewerEyePose false (fun _ => .error Exn.NoPoseYet)
        (some sampleHandle) 0 0 (some identityPose)
      = osvrClientGetViewerEyePose false (fun _ => .error (Exn.std_exception "tracker failure"))
        (some sampleHandle) 0 0 (some identityPose) :=
  ⟨rfl, rfl, rfl⟩

/-- C9, amended: for a handle with a non-null config, viewer 0, an eye index
below the viewer's eye count and a non-null pose pointer,
osvrClientGetViewerEyePose returns OSVR_RETURN_SUCCESS and stores the pose
when getPose returns one, and returns OSVR_RETURN_FAILURE with the cell *pose
untouched when getPose throws, for NoPoseYet and for every other exception
alike: a failure is never reported as success, and all failures share one
return value. -/
theorem C9_eye_pose_failures_share_return_code (assertionsEnabled : Bool)
    (getPose : ViewerEye → Except Exn OSVR_Pose3) (address : Nat) (viewer : Viewer)
    (eye : Nat) (viewerEye : ViewerEye) (held : OSVR_Pose3)
    (hEye : viewer.m_eyes[eye]? = some viewerEye) :
    (∀ p, getPose viewerEye = .ok p →
      osvrClientGetViewerEyePose assertionsEnabled getPose
        (some { ctx := address, cfg := some { m_viewers := [viewer] } }) 0 eye (some held)
        = .ok (.OSVR_RETURN_SUCCESS, some p))
    ∧ (∀ e, getPose viewerEye = .error e →
      osvrClientGetViewerEyePose assertionsEnabled getPose
        (some { ctx := address, cfg := some { m_viewers := [viewer] } }) 0 eye (some held)
        = .ok (.OSVR_RETURN_FAILURE, some held)) := by
  have hlt : eye < viewer.m_eyes.length := by
    rcases Nat.lt_or_ge eye viewer.m_eyes.length with h | h
    · exact h
    · rw [List.getElem?_eq_none h] at hEye
      cases hEye
  have hvalid : OSVR_VALIDATE_EYE_ID assertionsEnabled
      { ctx := address, cfg := some { m_viewers := [viewer] } } 0 eye = .ok () := by
    cases assertionsEnabled <;>
      simp [OSVR_VALIDATE_EYE_ID, eyeIdValid, OSVR_DisplayConfigObject.deref,
        DisplayConfig.getNumViewerEyes, DisplayConfig.getViewer, Viewer.size,
        BOOST_ASSERT_MSG, hlt]
  have hviewer : BOOST_ASSERT_MSG assertionsEnabled true viewerIdText = .ok () := by
    cases assertionsEnabled <;> simp [BOOST_ASSERT_MSG]
  have hpose : viewerEyePose getPose { ctx := address, cfg := some { m_viewers := [viewer] } }
      0 eye = liftExn (getPose viewerEye) := by
    simp [viewerEyePose, OSVR_DisplayConfigObject.deref, DisplayConfig.getViewerEye,
      DisplayConfig.getViewer, hEye]
  constructor
  · intro p hp
    simp [osvrClientGetViewerEyePose, hviewer, hvalid, hpose, hp, liftExn]
  · intro e he
    cases e <;> simp [osvrClientGetViewerEyePose, hviewer, hvalid, hpose, he, liftExn]

/-- C9, amended, instance: eye 1 of the sample handle, with a pose query that
throws NoPoseYet. -/
theorem C9_eye_pose_failures_sample :
    osvrClientGetViewerEyePose true (fun _ => .error Exn.NoPoseYet)
        (some sampleHandle) 0 1 (some identityPose)
      = .ok (.OSVR_RETURN_FAILURE, some identityPose) :=
  (C9_eye_pose_failures_share_return_code true (fun _ => .error Exn.NoPoseYet) 1
    { ctx := 1, path := HEAD_PATH, m_eyes := [sampleEye (-1), sampleEye 1] } 1 (sampleEye 1)
    identityPose rfl).2 Exn.NoPoseYet rfl

/-! ## Eye counts other than two -/

/-- On a descriptor with an empty eye list the mono branch visits index 0 and
the read `eyesDesc[0]` is past the end: `create` is undefined, whatever the
display mode. -/
theorem create_empty_eyes (ext : Externals) (ctx : ClientContext) (s : String)
    (desc : DisplayDescriptor)
    (hs : ctx.getStringParameter "/display" = .ok s)
    (hp : ext.parseDescriptor s = .ok desc) (he : desc.eyes = []) :
    DisplayConfigFactory.create ext ctx
      = .error (Fault.undefined_behaviour "eyesDesc[eye] past the end") := by
  simp [DisplayConfigFactory.create, hs, hp, liftExn, he, emplaceEyes]

/-- C8, evaluated at the failing input: for the descriptor with an
unrecognized display mode (the unmapped value 7) and an empty eye list, fetched
from a context that supplies "/display", computeViewport(0, descriptor) would
throw the unrecognized-display-mode error, but the same constructor call reads
eyesDesc[0] past the end of the empty list, so create does not fail with that
error: its evaluation is undefined, and osvrClientGetDisplay returns no code
at all, in particular not OSVR_RETURN_FAILURE. -/
theorem C8_unrecognized_mode_empty_eye_list_no_failure :
    unmappedEmptySample.displayMode.recognized = false
    ∧ unmappedEmptySample.eyes = []
    ∧ computeViewport 0 unmappedEmptySample = .error UnrecognizedDisplayMode
    ∧ DisplayConfigFactory.create (sampleExternals unmappedEmptySample) sampleContext
        = .error (Fault.undefined_behaviour "eyesDesc[eye] past the end")
    ∧ DisplayConfigFactory.create (sampleExternals unmappedEmptySample) sampleContext
        ≠ .error UnrecognizedDisplayMode
    ∧ osvrClientGetDisplay (sampleExternals unmappedEmptySample) (some sampleContext)
        (some none) = .error (Fault.undefined_behaviour "eyesDesc[eye] past the end")
    ∧ (¬ ∃ r, osvrClientGetDisplay (sampleExternals unmappedEmptySample) (some sampleContext)
          (some none) = .ok r) := by
  have hc : DisplayConfigFactory.create (sampleExternals unmappedEmptySample) sampleContext
      = .error (Fault.undefined_behaviour "eyesDesc[eye] past the end") :=
    create_empty_eyes (sampleExternals unmappedEmptySample) sampleContext "descriptor"
      unmappedEmptySample rfl rfl rfl
  have hg : osvrClientGetDisplay (sampleExternals unmappedEmptySample) (some sampleContext)
      (some none) = .error (Fault.undefined_behaviour "eyesDesc[eye] past the end") := by
    simp [osvrClientGetDisplay, OSVR_DisplayConfigObject.construct, hc]
  refine ⟨rfl, rfl, rfl, hc, ?_, hg, ?_⟩
  · rw [hc]
    simp [UnrecognizedDisplayMode]
  · rintro ⟨r, h⟩
    rw [hg] at h
    cases h

/-- On a descriptor with a recognized mode whose eye count is neither 0 nor 2
(so 1, 3 or more), `create` returns one viewer with the single eye 0: zero
offset, the viewport `computeViewport(0, descriptor)` and the rotation flag of
the descriptor's eye 0; the one read `eyesDesc[0]` is within bounds. -/
theorem create_mono_of_nonempty (ext : Externals) (ctx : ClientContext) (s : String)
    (desc : DisplayDescriptor)
    (hs : ctx.getStringParameter "/display" = .ok s)
    (hp : ext.parseDescriptor s = .ok desc)
    (hn2 : desc.eyes.length ≠ 2) (hn0 : desc.eyes.length ≠ 0)
    (hm : desc.displayMode.recognized = true) :
    ∃ v0 eye0, computeViewport 0 desc = .ok v0 ∧ desc.eyes[0]? = some eye0
      ∧ DisplayConfigFactory.create ext ctx = .ok { m_viewers := [
          { ctx := ctx.address, path := HEAD_PATH, m_eyes := [
            { ctx := ctx.address, offset := Vector3d.Zero, path := HEAD_PATH,
              viewport := v0, rect := computeRect ext desc,
              rotate180 := eye0.m_rotate180, pitchTilt := desc.pitchTilt }] }] } := by
  obtain ⟨v0, h0⟩ := computeViewport_ok_of_recognized 0 desc hm
  have hne : desc.eyes ≠ [] := by
    intro h
    exact hn0 (by simp [h])
  obtain ⟨a, rest, he⟩ := List.exists_cons_of_ne_nil hne
  have he0 : desc.eyes[0]? = some a := by simp [he]
  refine ⟨v0, a, h0, he0, ?_⟩
  rw [create_mono ext ctx s desc a v0 hs hp hn2 he0 h0]
  simp [Vector3d.scale, Vector3d.Zero]

/-- C11, evaluated at the failing input: for the descriptor with an empty eye
list (eye count 0, which is not 2) and the recognized mode FULL_SCREEN, the
one index the loop visits is 0 and the read eyesDesc[0] is past the end of the
list, so create does not succeed: its evaluation is undefined, no
DisplayConfig is produced, and osvrClientGetDisplay has no defined result
either. -/
theorem C11_empty_eye_list_read_out_of_bounds :
    emptyEyesSample.eyes.length ≠ 2
    ∧ emptyEyesSample.displayMode.recognized = true
    ∧ emptyEyesSample.eyes[0]? = none
    ∧ DisplayConfigFactory.create (sampleExternals emptyEyesSample) sampleContext
        = .error (Fault.undefined_behaviour "eyesDesc[eye] past the end")
    ∧ (¬ ∃ cfg, DisplayConfigFactory.create (sampleExternals emptyEyesSample) sampleContext
          = .ok cfg)
    ∧ osvrClientGetDisplay (sampleExternals emptyEyesSample) (some sampleContext) (some none)
        = .error (Fault.undefined_behaviour "eyesDesc[eye] past the end") := by
  have hc : DisplayConfigFactory.create (sampleExternals emptyEyesSample) sampleContext
      = .error (Fault.undefined_behaviour "eyesDesc[eye] past the end") :=
    create_empty_eyes (sampleExternals emptyEyesSample) sampleContext "descriptor"
      emptyEyesSample rfl rfl rfl
  refine ⟨by decide, rfl, rfl, hc, ?_, ?_⟩
  · rintro ⟨cfg, h⟩
    rw [hc] at h
    cases h
  · simp [osvrClientGetDisplay, OSVR_DisplayConfigObject.construct, hc]

/-- The part of the mono rule that the code does carry out, at a three-eye
descriptor: one viewer, the single eye 0 with zero offset, the full-screen
viewport and the rotation flag of the descriptor's eye 0. -/
theorem create_three_eyes_sample :
    DisplayConfigFactory.create (sampleExternals threeEyesSample) sampleContext
      = .ok { m_viewers := [
          { ctx := 1, path := HEAD_PATH, m_eyes := [
            { ctx := 1, offset := Vector3d.Zero, path := HEAD_PATH,
              viewport := { left := 0, bottom := 0, width := 1920, height := 1080 },
              rect := computeRect (sampleExternals threeEyesSample) threeEyesSample,
              rotate180 := true, pitchTilt := 0 }] }] } := by
  obtain ⟨v0, eye0, h0, he0, hc⟩ :=
    create_mono_of_nonempty (sampleExternals threeEyesSample) sampleContext "descriptor"
      threeEyesSample rfl rfl (by decide) (by decide) rfl
  have hv : v0 = { left := 0, bottom := 0, width := 1920, height := 1080 } := by
    have h : computeViewport 0 threeEyesSample
        = .ok { left := 0, bottom := 0, width := 1920, height := 1080 } := rfl
    rw [h] at h0
    exact (Except.ok.inj h0).symm
  have he : eye0 = ⟨true⟩ := by
    have h : threeEyesSample.eyes[0]? = some ⟨true⟩ := rfl
    rw [h] at he0
    exact (Option.some.inj he0).symm
  subst hv
  subst he
  rw [hc]
  rfl

end OSVR
